import Mathlib

/-!
Verification of the DaboTV ad-filtering core against its specification.

The development shallowly embeds the three source modules:
  * `smartAdDetector.ts` — the multi-signal segment classifier (`SmartAdDetector`),
  * `adFilter.ts` — the composite per-fragment filter (`isAdSegment`, `filterAdSegments`),
  * the M3U8 playlist rewriter (`filterAdsFromM3U8`, `isAdDuration`, `isAdUrl`).

Modelling conventions:
  * JavaScript numbers are modelled by `Dec`, an exact decimal fixed-point type
    (value `num / 10 ^ exp`).  Every numeric literal in the source is a decimal
    fraction, and every comparison in the source happens far from the ulp-level
    rounding of IEEE doubles, so decimal semantics and double semantics agree on
    every decision taken by the code.  `Dec.toQ` interprets a `Dec` as a rational
    and bridge lemmas relate the executable comparisons to `ℚ` inequalities.
  * JavaScript falsiness of optional numbers (`0`, `undefined`) and strings
    (`""`, `undefined`) is made explicit (`Dec.isZero`, `truthyDur`, `truthyTitle`).
  * The classifier cache key `` `${url}_${duration}` `` is modelled by the pair
    `(url, duration)`: the rendering of a JS number never contains `_`, so the
    string key is injective in the pair and the pair is an equivalent key.
  * The user-supplied regular expressions of `matchType: 'regex'` custom patterns
    are abstracted by an arbitrary test function `regexTest` that the M3U8
    functions take as a parameter; theorems quantify over it.  The fixed regex
    literals of `analyzeByUrl` are expanded into the exact substring tests they
    denote.
-/

set_option maxRecDepth 100000

/-- Exact decimal fixed-point number: the value is `num / 10 ^ exp`.  This models
JavaScript numbers in the ad-filter core, all of which are decimal fractions. -/
structure Dec where
  num : ℤ
  exp : ℕ
  deriving DecidableEq, Repr

/-- Powers of ten as integers, by structural recursion (kernel friendly). -/
def pow10 : ℕ → ℤ
  | 0 => 1
  | e + 1 => 10 * pow10 e

/-- The rational value denoted by a `Dec`. -/
def Dec.toQ (a : Dec) : ℚ := (a.num : ℚ) / (10 : ℚ) ^ a.exp

/-- Executable `≤` on `Dec`, by cross multiplication. -/
def Dec.ble (a b : Dec) : Bool := decide (a.num * pow10 b.exp ≤ b.num * pow10 a.exp)

/-- Executable `<` on `Dec`, by cross multiplication. -/
def Dec.blt (a b : Dec) : Bool := decide (a.num * pow10 b.exp < b.num * pow10 a.exp)

/-- Exact subtraction on `Dec` (no normalisation needed). -/
def Dec.sub (a b : Dec) : Dec := ⟨a.num * pow10 b.exp - b.num * pow10 a.exp, a.exp + b.exp⟩

/-- Exact addition on `Dec`. -/
def Dec.add (a b : Dec) : Dec := ⟨a.num * pow10 b.exp + b.num * pow10 a.exp, a.exp + b.exp⟩

/-- Absolute value on `Dec`, models `Math.abs`. -/
def Dec.abs (a : Dec) : Dec := ⟨|a.num|, a.exp⟩

/-- Multiplication of a `Dec` by a natural number. -/
def Dec.mulNat (a : Dec) (n : ℕ) : Dec := ⟨a.num * n, a.exp⟩

/-- `Math.max` on `Dec`. -/
def Dec.max (a b : Dec) : Dec := if Dec.ble a b then b else a

/-- `Math.min` on `Dec`. -/
def Dec.min (a b : Dec) : Dec := if Dec.ble a b then a else b

/-- Zero test; a `Dec` denotes `0` iff its numerator is `0` (JS falsiness of a number). -/
def Dec.isZero (a : Dec) : Bool := a.num == 0

theorem pow10_eq (e : ℕ) : pow10 e = (10 : ℤ) ^ e := by
  induction e with
  | zero => rfl
  | succ n ih => rw [pow10, ih, pow_succ]; ring

theorem pow10_cast (e : ℕ) : ((pow10 e : ℤ) : ℚ) = (10 : ℚ) ^ e := by
  rw [pow10_eq]; push_cast; ring

theorem pow10_pos_q (e : ℕ) : (0 : ℚ) < (10 : ℚ) ^ e := by positivity

theorem Dec.ble_iff (a b : Dec) : Dec.ble a b = true ↔ a.toQ ≤ b.toQ := by
  rw [Dec.ble, decide_eq_true_iff, Dec.toQ, Dec.toQ,
    div_le_div_iff (pow10_pos_q a.exp) (pow10_pos_q b.exp)]
  rw [← pow10_cast, ← pow10_cast]
  exact_mod_cast Iff.rfl

theorem Dec.blt_iff (a b : Dec) : Dec.blt a b = true ↔ a.toQ < b.toQ := by
  rw [Dec.blt, decide_eq_true_iff, Dec.toQ, Dec.toQ,
    div_lt_div_iff (pow10_pos_q a.exp) (pow10_pos_q b.exp)]
  rw [← pow10_cast, ← pow10_cast]
  exact_mod_cast Iff.rfl

theorem Dec.toQ_sub (a b : Dec) : (Dec.sub a b).toQ = a.toQ - b.toQ := by
  rw [Dec.sub, Dec.toQ, Dec.toQ, Dec.toQ]
  push_cast [pow10_cast]
  rw [pow_add]
  have ha := (pow10_pos_q a.exp).ne.symm
  have hb := (pow10_pos_q b.exp).ne.symm
  field_simp
  ring

theorem Dec.toQ_abs (a : Dec) : (Dec.abs a).toQ = |a.toQ| := by
  rw [Dec.abs, Dec.toQ, Dec.toQ, abs_div, abs_of_pos (pow10_pos_q a.exp)]
  push_cast
  rfl

/-! ## String utilities

Structurally recursive models of the JavaScript string operations used by the
source (`includes`, `toLowerCase`, `trim`, `startsWith`, `split('\n')`,
`join('\n')`), working on the character list underlying a `String` so that
closed instances evaluate inside the kernel. -/

/-- Substring search on character lists, models `String.prototype.includes`. -/
def strContainsList : List Char → List Char → Bool
  | [], sub => sub.isEmpty
  | c :: t, sub => sub.isPrefixOf (c :: t) || strContainsList t sub

/-- `s.includes(sub)`. -/
def strContains (s sub : String) : Bool := strContainsList s.data sub.data

/-- `s.toLowerCase()`; ASCII case folding, identity on other characters, which
matches JS on every string occurring in this module. -/
def strLower (s : String) : String := ⟨s.data.map Char.toLower⟩

/-- Whitespace recognised by the model of `trim`. -/
def isWsChar (c : Char) : Bool := c = ' ' || c = '\t' || c = '\r' || c = '\n'

/-- `s.trim()`. -/
def strTrim (s : String) : String :=
  ⟨((s.data.dropWhile isWsChar).reverse.dropWhile isWsChar).reverse⟩

/-- `s.startsWith(pre)`. -/
def strStartsWith (s pre : String) : Bool := pre.data.isPrefixOf s.data

/-- Split a character list on a separator character, models
`String.prototype.split` with a single-character separator (`"".split` gives
`[""]`, like JS). -/
def splitOnChar (sep : Char) : List Char → List (List Char)
  | [] => [[]]
  | c :: t =>
    if c = sep then [] :: splitOnChar sep t
    else
      match splitOnChar sep t with
      | h :: r => (c :: h) :: r
      | [] => [[c]]

/-- `s.split('\n')`. -/
def strSplitLines (s : String) : List String := (splitOnChar '\n' s.data).map String.mk

/-- `lines.join('\n')`. -/
def strJoinLines (l : List String) : String := ⟨List.intercalate ['\n'] (l.map String.data)⟩

/-! ## Segment classifier (`smartAdDetector.ts`)

Shallow embedding of `SmartAdDetector`.  The mutable field `adHistory` is the
classifier cache, threaded explicitly; `contentPatternCache` is declared in the
source but never read or written outside `clearCache`, so it is omitted. -/

/-- Shorthand for a decimal constant `n / 10 ^ e`. -/
def dec (n : ℤ) (e : ℕ) : Dec := ⟨n, e⟩

/-- The `adType` enumeration of `DetectionResult`. -/
inductive AdType where
  | short
  | midRoll
  | embedded
  | unknown
  deriving DecidableEq, Repr

/-- `DetectionResult` of `smartAdDetector.ts`; `adType` is optional in the
source's object literals, modelled by `Option` (a missing key is `none`). -/
structure DetectionResult where
  isAd : Bool
  confidence : Dec
  reason : String
  adType : Option AdType := none
  deriving DecidableEq, Repr

/-- `FragmentInfo` of `smartAdDetector.ts`. -/
structure FragmentInfo where
  url : String
  duration : Option Dec := none
  title : Option String := none
  index : Option ℕ := none
  startTime : Option Dec := none
  endTime : Option Dec := none
  deriving DecidableEq, Repr

/-- `analyzeByDuration`: bucket table over the fragment duration. -/
def analyzeByDuration (duration : Dec) : DetectionResult :=
  if Dec.ble (dec 1 0) duration ∧ Dec.ble duration (dec 3 0) then
    { isAd := false, confidence := dec 1 1, reason := s!"极短片段 ({duration.num}e-{duration.exp}s)",
      adType := some AdType.short }
  else if Dec.ble (dec 4 0) duration ∧ Dec.ble duration (dec 10 0) then
    { isAd := true, confidence := dec 4 1, reason := s!"短片段 ({duration.num}e-{duration.exp}s)",
      adType := some AdType.short }
  else if Dec.ble (dec 11 0) duration ∧ Dec.ble duration (dec 30 0) then
    { isAd := true, confidence := dec 6 1, reason := s!"中等片段 ({duration.num}e-{duration.exp}s)",
      adType := some AdType.midRoll }
  else if Dec.ble (dec 31 0) duration ∧ Dec.ble duration (dec 60 0) then
    { isAd := true, confidence := dec 4 1, reason := s!"较长片段 ({duration.num}e-{duration.exp}s)",
      adType := some AdType.midRoll }
  else if Dec.blt (dec 60 0) duration then
    { isAd := false, confidence := dec 95 2, reason := s!"正常内容片段 ({duration.num}e-{duration.exp}s)" }
  else
    { isAd := false, confidence := dec 2 1, reason := s!"时长模糊 ({duration.num}e-{duration.exp}s)" }

/-- High-confidence URL ad keywords of `analyzeByUrl`. -/
def highConfidenceAdKeywordsUrl : List String :=
  ["adserver", "adservice", "doubleclick", "googlesyndication", "admanager",
   "vast", "vpaid", "preroll", "postroll", "midroll", "commercials", "adtag"]

/-- Medium-confidence URL ad keywords of `analyzeByUrl`. -/
def mediumConfidenceAdKeywordsUrl : List String :=
  ["ad", "ads", "advertisement", "promo", "promotion", "sponsor", "sponsored", "brand_ad"]

/-- The fixed regex literals of `analyzeByUrl`, each expanded into the exact
case-insensitive substring test it denotes (first component: the regex source,
used only in the diagnostic `reason`). -/
def adPatternsUrl : List (String × (String → Bool)) :=
  [ ("\\/ads?\\/", fun u => strContains (strLower u) "/ad/" || strContains (strLower u) "/ads/"),
    ("\\/commercial\\/", fun u => strContains (strLower u) "/commercial/"),
    ("\\/promo\\/", fun u => strContains (strLower u) "/promo/"),
    ("\\/sponsor\\/", fun u => strContains (strLower u) "/sponsor/"),
    ("_ad_", fun u => strContains (strLower u) "_ad_"),
    ("-ad-", fun u => strContains (strLower u) "-ad-"),
    ("\\.ad\\.", fun u => strContains (strLower u) ".ad."),
    ("ad_slot", fun u => strContains (strLower u) "ad_slot"),
    ("ad_unit", fun u => strContains (strLower u) "ad_unit") ]

/-- `analyzeByUrl`: tiered keyword lists then fixed regex patterns.  The
high-confidence loop breaks on the first hit; the medium loop visits all
keywords (last hit's reason wins) and then rescales the confidence by the hit
count; the pattern loop breaks on the first hit and can only raise the
confidence. -/
def analyzeByUrl (url : String) : DetectionResult :=
  let lowerUrl := strLower url
  let s0 : DetectionResult :=
    { isAd := false, confidence := dec 1 1, reason := "URL无明显广告特征" }
  let s1 : DetectionResult :=
    match highConfidenceAdKeywordsUrl.find? (fun k => strContains lowerUrl k) with
    | some k => { s0 with isAd := true, confidence := Dec.max s0.confidence (dec 9 1),
                          reason := s!"URL包含高置信度广告关键词: {k}" }
    | none => s0
  let s2 : DetectionResult :=
    if s1.isAd then s1
    else
      let s' := mediumConfidenceAdKeywordsUrl.foldl
        (fun acc k =>
          if strContains lowerUrl k then
            { acc with isAd := true, confidence := Dec.max acc.confidence (dec 4 1),
                       reason := s!"URL包含中置信度广告关键词: {k}" }
          else acc) s1
      if s'.isAd then
        let foundCount := (mediumConfidenceAdKeywordsUrl.filter (fun k => strContains lowerUrl k)).length
        { s' with confidence := Dec.min (dec 6 1) (Dec.add (dec 3 1) (Dec.mulNat (dec 1 1) foundCount)) }
      else s'
  let s3 : DetectionResult :=
    match adPatternsUrl.find? (fun p => p.2 url) with
    | some p => { s2 with isAd := true, confidence := Dec.max s2.confidence (dec 75 2),
                          reason := s!"URL匹配广告模式: {p.1}" }
    | none => s2
  { s3 with adType := some AdType.unknown }

/-- High-confidence title ad keywords of `analyzeByTitle`. -/
def highConfidenceAdKeywordsTitle : List String :=
  ["广告", "推广", "赞助", "商业广告", "宣传片", "ad", "commercial", "sponsored", "广告时间"]

/-- Medium-confidence title ad keywords of `analyzeByTitle`. -/
def mediumConfidenceAdKeywordsTitle : List String :=
  ["预告", "插播", "弹窗", "横幅", "浮动", "嵌入", "promo", "trailer", "preview", "品牌合作"]

/-- `analyzeByTitle`: same two-tier structure as the URL analysis, without the
regex pattern pass. -/
def analyzeByTitle (title : String) : DetectionResult :=
  let lowerTitle := strLower title
  let s0 : DetectionResult :=
    { isAd := false, confidence := dec 1 1, reason := "标题无明显广告特征" }
  let s1 : DetectionResult :=
    match highConfidenceAdKeywordsTitle.find? (fun k => strContains lowerTitle k) with
    | some k => { s0 with isAd := true, confidence := Dec.max s0.confidence (dec 85 2),
                          reason := s!"标题包含高置信度广告关键词: {k}" }
    | none => s0
  let s2 : DetectionResult :=
    if s1.isAd then s1
    else
      let s' := mediumConfidenceAdKeywordsTitle.foldl
        (fun acc k =>
          if strContains lowerTitle k then
            { acc with isAd := true, confidence := Dec.max acc.confidence (dec 45 2),
                       reason := s!"标题包含中置信度广告关键词: {k}" }
          else acc) s1
      if s'.isAd then
        let foundCount := (mediumConfidenceAdKeywordsTitle.filter (fun k => strContains lowerTitle k)).length
        { s' with confidence := Dec.min (dec 65 2) (Dec.add (dec 35 2) (Dec.mulNat (dec 1 1) foundCount)) }
      else s'
  { s2 with adType := some AdType.unknown }

/-- `analyzeBySequence`: positional heuristic over the fragment index and
duration.  Every branch reports `isAd := false`. -/
def analyzeBySequence (index : ℕ) (duration : Dec) : DetectionResult :=
  if index < 2 ∧ Dec.ble duration (dec 8 0) then
    { isAd := false, confidence := dec 2 1,
      reason := s!"开头短片段 (索引: {index})", adType := some AdType.short }
  else if Dec.ble duration (dec 12 0) then
    { isAd := false, confidence := dec 1 1,
      reason := s!"序列中的短片段 (索引: {index})", adType := some AdType.unknown }
  else
    { isAd := false, confidence := dec 1 1, reason := "序列模式不明显" }

/-- The classifier cache `adHistory`, an association list keyed by
`(url, duration)` (see the header note on the string key), newest entry first. -/
abbrev AdHistory := List ((String × Option Dec) × Bool)

/-- `Map.has`/`Map.get` combined: first matching entry. -/
def cacheLookup (c : AdHistory) (k : String × Option Dec) : Option Bool :=
  match c.find? (fun e => e.1 = k) with
  | some e => some e.2
  | none => none

/-- `Map.set`: the new entry shadows any previous entry with the same key. -/
def cacheInsert (c : AdHistory) (k : String × Option Dec) (b : Bool) : AdHistory :=
  (k, b) :: c

/-- The object spread `{ ...sub, ...result }` of `detectAd`: every field present
in `result` wins; `adType` is the only field that can be absent from `result`,
in which case `sub`'s `adType` is taken. -/
def mergeSpread (sub result : DetectionResult) : DetectionResult :=
  { isAd := result.isAd, confidence := result.confidence, reason := result.reason,
    adType := match result.adType with
      | some a => some a
      | none => sub.adType }

/-- One sub-analysis step of `detectAd`: raise `result.confidence` to the max
with the analysis confidence, then, if the analysis flags an ad, perform the
spread `result = { ...analysis, ...result }`. -/
def combineStep (result analysis : DetectionResult) : DetectionResult :=
  let result' := { result with confidence := Dec.max result.confidence analysis.confidence }
  if analysis.isAd then mergeSpread analysis result' else result'

/-- JS truthiness of the optional title (`undefined` and `""` are falsy). -/
def truthyTitle : Option String → Option String
  | some t => if t = "" then none else some t
  | none => none

/-- JS truthiness of the optional duration (`undefined` and `0` are falsy). -/
def truthyDur : Option Dec → Option Dec
  | some d => if d.isZero then none else some d
  | none => none

/-- `SmartAdDetector.detectAd`, threading the `adHistory` cache: cache check,
`!duration` falsiness check, then the duration/URL/title/sequence analyses and
the final cache insertion. -/
def detectAd (cache : AdHistory) (fragment : FragmentInfo) : DetectionResult × AdHistory :=
  let cacheKey : String × Option Dec := (fragment.url, fragment.duration)
  match cacheLookup cache cacheKey with
  | some isAd =>
    ({ isAd := isAd, confidence := dec 9 1, reason := "缓存命中", adType := some AdType.unknown }, cache)
  | none =>
    match truthyDur fragment.duration with
    | none => ({ isAd := false, confidence := dec 1 1, reason := "缺少时长信息" }, cache)
    | some d =>
      let r0 := analyzeByDuration d
      let r1 := combineStep r0 (analyzeByUrl fragment.url)
      let r2 := match truthyTitle fragment.title with
        | some t => combineStep r1 (analyzeByTitle t)
        | none => r1
      let r3 := match fragment.index with
        | some i => combineStep r2 (analyzeBySequence i d)
        | none => r2
      (r3, cacheInsert cache cacheKey r3.isAd)

/-! ## Composite ad filter (`adFilter.ts`)

Embedding of `isAdSegment` and `filterAdSegments`.  The module-level
`smartAdDetector` singleton's cache is the threaded `AdHistory` state. -/

/-- `matchType` of a custom pattern (`adConfig.ts`). -/
inductive MatchType where
  | contains
  | regex
  deriving DecidableEq, Repr

/-- Closed duration interval of a pattern. -/
structure DurationRange where
  min : Dec
  max : Dec
  deriving DecidableEq, Repr

/-- `CustomPattern` of `adConfig.ts`. -/
structure CustomPattern where
  name : String
  enabled : Bool
  urlPatterns : List String
  titlePatterns : List String
  durationRange : Option DurationRange := none
  priority : ℤ
  matchType : Option MatchType := none
  deriving DecidableEq, Repr

/-- `AdFilterConfig` of `adConfig.ts`. -/
structure AdFilterConfig where
  enabled : Bool
  strictMode : Bool
  customPatterns : List CustomPattern
  skipPreRoll : Bool
  skipMidRoll : Bool
  skipPostRoll : Bool
  maxAdDuration : Dec
  minContentDuration : Dec
  deriving DecidableEq, Repr

/-- `AdSegmentPattern` of `adFilter.ts` (the built-in `AD_PATTERNS` entries). -/
structure AdSegmentPattern where
  urlKeywords : Option (List String) := none
  durationRange : Option DurationRange := none
  titleKeywords : Option (List String) := none
  deriving DecidableEq, Repr

/-- The built-in `AD_PATTERNS` table of `adFilter.ts`. -/
def AD_PATTERNS : List AdSegmentPattern :=
  [ { urlKeywords := some ["ad", "advertisement", "commercial", "promo", "sponsor"],
      durationRange := some ⟨dec 5 0, dec 60 0⟩ },
    { urlKeywords := some ["pre-roll", "preroll", "intro-ad", "opening-ad"],
      durationRange := some ⟨dec 10 0, dec 30 0⟩ },
    { titleKeywords := some ["广告", "预告", "推广", "赞助"],
      durationRange := some ⟨dec 5 0, dec 120 0⟩ } ]

/-- The step-2 custom-pattern match of `isAdSegment` (lines 66-97): URL keywords
by lowercase `includes`; the title check is skipped when the title is falsy; the
duration-range check is skipped when the duration is falsy (note: `matchType` is
ignored by `isAdSegment`; only the M3U8 `isAdUrl` consults it). -/
def customPatternMatches (p : CustomPattern) (url : String) (duration : Option Dec)
    (title : Option String) : Bool :=
  p.enabled &&
  (p.urlPatterns.isEmpty ||
    p.urlPatterns.any (fun k => strContains (strLower url) (strLower k))) &&
  (p.titlePatterns.isEmpty ||
    (match truthyTitle title with
     | some t => p.titlePatterns.any (fun k => strContains (strLower t) (strLower k))
     | none => true)) &&
  (match p.durationRange, truthyDur duration with
   | some r, some d => Dec.ble r.min d && Dec.ble d r.max
   | _, _ => true)

/-- Keyword list of the step-3 short-segment heuristic of `isAdSegment`. -/
def shortSegAdKeywords : List String :=
  ["ad", "ads", "advertisement", "commercial", "promo", "promotion",
   "sponsor", "sponsored", "brand", "marketing", "advert"]

/-- Keyword list of the step-3 mid-roll heuristic of `isAdSegment`. -/
def midRollSegKeywords : List String :=
  ["mid", "break", "intermission", "insert", "embed",
   "popup", "overlay", "banner", "floating"]

/-- The step-3 inline heuristics of `isAdSegment` (lines 100-135), guarded in
the source by `!adConfig.strictMode && duration`. -/
def inlineHeuristic (url : String) (d : Dec) : Bool :=
  (Dec.ble (dec 3 0) d && Dec.ble d (dec 25 0) &&
    shortSegAdKeywords.any (fun k => strContains (strLower url) (strLower k))) ||
  (Dec.ble (dec 15 0) d && Dec.ble d (dec 45 0) &&
    midRollSegKeywords.any (fun k => strContains (strLower url) (strLower k)))

/-- The inline heuristics applied to an optional (possibly falsy) duration. -/
def inlineHeuristicOpt (url : String) (duration : Option Dec) : Bool :=
  match truthyDur duration with
  | some d => inlineHeuristic url d
  | none => false

/-- One `AD_PATTERNS` entry match (step 4 of `isAdSegment`, lines 139-163): each
of the three checks is skipped when its field is absent, and the duration/title
checks are additionally skipped when the corresponding argument is falsy. -/
def adSegmentPatternMatches (p : AdSegmentPattern) (url : String) (duration : Option Dec)
    (title : Option String) : Bool :=
  (match p.urlKeywords with
   | some ks => ks.any (fun k => strContains (strLower url) (strLower k))
   | none => true) &&
  (match p.durationRange, truthyDur duration with
   | some r, some d => Dec.ble r.min d && Dec.ble d r.max
   | _, _ => true) &&
  (match p.titleKeywords, truthyTitle title with
   | some ks, some t => ks.any (fun k => strContains (strLower t) (strLower k))
   | _, _ => true)

/-- `isAdSegment` of `adFilter.ts`: enabled gate, classifier call (threading the
shared cache), high-confidence short-circuit, custom patterns, inline
heuristics, built-in `AD_PATTERNS` (whose match result is *returned* when
`strictMode` is false), and the medium-confidence classifier fallback. -/
def isAdSegment (cache : AdHistory) (segmentUrl : String) (duration : Option Dec)
    (title : Option String) (adConfig : AdFilterConfig) (index : Option ℕ) :
    Bool × AdHistory :=
  if adConfig.enabled = false then (false, cache)
  else
    let r := detectAd cache { url := segmentUrl, duration := duration, title := title, index := index }
    let smartResult := r.1
    let verdict : Bool :=
      if Dec.ble (dec 7 1) smartResult.confidence then smartResult.isAd
      else if adConfig.customPatterns.any
          (fun p => customPatternMatches p segmentUrl duration title) then true
      else if adConfig.strictMode = false ∧ inlineHeuristicOpt segmentUrl duration = true then true
      else if adConfig.strictMode = false then
        AD_PATTERNS.any (fun p => adSegmentPatternMatches p segmentUrl duration title)
      else if Dec.ble (dec 4 1) smartResult.confidence ∧ smartResult.isAd = true then true
      else false
    (verdict, r.2)

/-- A playlist segment as consumed by `filterAdSegments`. -/
structure Segment where
  url : String
  duration : Option Dec := none
  title : Option String := none
  deriving DecidableEq, Repr

/-- `filterAdSegments` of `adFilter.ts`: keep the segments whose verdict is
false, in order, threading the shared classifier cache left to right (note the
source passes no `index` to `isAdSegment`). -/
def filterAdSegments (cache : AdHistory) (segments : List Segment)
    (config : AdFilterConfig) : List Segment × AdHistory :=
  match segments with
  | [] => ([], cache)
  | s :: rest =>
    let r := isAdSegment cache s.url s.duration s.title config none
    let rest' := filterAdSegments r.2 rest config
    (if r.1 then rest'.1 else s :: rest'.1, rest'.2)

/-! ## Playlist rewriter (M3U8 filter module)

Embedding of `filterAdsFromM3U8`, `parseExtinfDuration`, `isAdDuration` and
`isAdUrl`.  The local `currentExtinf` variable of the source loop is assigned
but never read, so it does not appear in the loop state. -/

/-- Digit run to a natural number. -/
def digitsToNat (cs : List Char) : ℕ :=
  cs.foldl (fun a c => a * 10 + (c.toNat - 48)) 0

/-- `parseFloat` on a string of digits and dots (the only shape the M3U8 code
feeds it): longest valid decimal prefix; a string with no leading digits and no
digits after a leading dot is NaN, returned as `none` (a NaN duration fails
every comparison of `isAdDuration`, hence behaves exactly like `none` here). -/
def parseFloatDec (cs : List Char) : Option Dec :=
  let intDigits := cs.takeWhile Char.isDigit
  let rest := cs.dropWhile Char.isDigit
  match rest with
  | '.' :: r2 =>
    let fracDigits := r2.takeWhile Char.isDigit
    if intDigits.isEmpty && fracDigits.isEmpty then none
    else some ⟨(digitsToNat intDigits * 10 ^ fracDigits.length + digitsToNat fracDigits : ℕ),
               fracDigits.length⟩
  | _ => if intDigits.isEmpty then none else some ⟨(digitsToNat intDigits : ℕ), 0⟩

/-- The regex search of `/#EXTINF:([\d.]+)/`: at each position, try to match the
literal `#EXTINF:` followed by a non-empty greedy run of digits and dots. -/
def extinfMatch : List Char → Option (List Char)
  | [] => none
  | c :: rest =>
    if ("#EXTINF:".data).isPrefixOf (c :: rest) then
      let after := (c :: rest).drop 8
      let span := after.takeWhile (fun ch => ch.isDigit || ch = '.')
      if span.isEmpty then extinfMatch rest else some span
    else extinfMatch rest

/-- `parseExtinfDuration` of the M3U8 module. -/
def parseExtinfDuration (extinfLine : String) : Option Dec :=
  match extinfMatch extinfLine.data with
  | some span => parseFloatDec span
  | none => none

/-- The per-source ad-duration table `sourceAdDurations` of `isAdDuration`. -/
def sourceAdDurations (source : String) : List Dec :=
  if source = "ruyi" then
    [dec 564 2, dec 296 2, dec 348 2, dec 4 0, dec 96 2, dec 10 0, dec 1266667 6]
  else if source = "ffzy" then [dec 5 0, dec 10 0, dec 15 0]
  else if source = "bfzy" then [dec 5 0, dec 10 0, dec 15 0]
  else []

/-- The table consulted for an optional source: `source && sourceAdDurations[source]`
(a falsy or unknown source yields no entries). -/
def sourceListOf : Option String → List Dec
  | some s => if s = "" then [] else sourceAdDurations s
  | none => []

/-- The global fallback table `commonAdDurations` of `isAdDuration`. -/
def commonAdDurations : List Dec :=
  [dec 5 0, dec 564 2, dec 10 0, dec 15 0, dec 20 0, dec 30 0,
   dec 296 2, dec 348 2, dec 4 0, dec 96 2, dec 1266667 6]

/-- The tolerance comparison `Math.abs(duration - adDuration) < 0.01`. -/
def durationNear (d t : Dec) : Bool := Dec.blt (Dec.abs (Dec.sub d t)) (dec 1 2)

/-- The per-source scan of `isAdDuration`. -/
def sourceDurationMatch (d : Dec) (source : Option String) : Bool :=
  (sourceListOf source).any (fun t => durationNear d t)

/-- The fallback scan of `isAdDuration`. -/
def commonDurationMatch (d : Dec) : Bool :=
  commonAdDurations.any (fun t => durationNear d t)

/-- `isAdDuration` of the M3U8 module: the per-source table always applies; in
strict mode the function then returns false without consulting the fallback. -/
def isAdDuration (duration : Dec) (source : Option String) (config : AdFilterConfig) : Bool :=
  if sourceDurationMatch duration source then true
  else if config.strictMode then false
  else commonDurationMatch duration

/-- The fixed keyword list of the M3U8 `isAdUrl`. -/
def m3u8AdKeywords : List String :=
  ["adserver", "adservice", "doubleclick", "googlesyndication",
   "admanager", "vast", "vpaid", "preroll", "postroll", "midroll",
   "commercials", "adtag", "ads.", "/ads/", "_ad_", "-ad-",
   "advertisement", "sponsor", "promo"]

/-- `isAdUrl` of the M3U8 module.  `regexTest pat url` abstracts
`new RegExp(pat, 'i').test(url)` for user-supplied regex patterns (an invalid
regex, swallowed by the source's try/catch, is a `regexTest` returning false). -/
def isAdUrl (regexTest : String → String → Bool) (url : String)
    (config : AdFilterConfig) : Bool :=
  if m3u8AdKeywords.any (fun k => strContains (strLower url) k) then true
  else
    config.customPatterns.any (fun p =>
      p.enabled && p.urlPatterns.any (fun up =>
        match p.matchType with
        | some MatchType.regex => regexTest up url
        | _ => strContains (strLower url) (strLower up)))

/-- `M3U8FilterResult` of the M3U8 module. -/
structure M3U8FilterResult where
  content : String
  removedSegments : ℤ
  originalSegments : ℤ
  deriving DecidableEq, Repr

/-- Loop state of the `filterAdsFromM3U8` line pass; `filteredRev` holds the
kept lines in reverse (so the source's `pop()` is a head drop). -/
structure M3U8State where
  filteredRev : List String
  removedSegments : ℤ
  originalSegments : ℤ
  skipNext : Bool
  deriving DecidableEq, Repr

/-- One iteration of the `filterAdsFromM3U8` loop body. -/
def m3u8Step (regexTest : String → String → Bool) (source : Option String)
    (adConfig : AdFilterConfig) (st : M3U8State) (line : String) : M3U8State :=
  let trimmedLine := strTrim line
  if st.skipNext = true then
    { st with skipNext := false, removedSegments := st.removedSegments + 1 }
  else if trimmedLine = "#EXT-X-DISCONTINUITY" then st
  else if strStartsWith trimmedLine "#EXTINF:" then
    match parseExtinfDuration trimmedLine with
    | some d =>
      if isAdDuration d source adConfig then { st with skipNext := true }
      else { st with filteredRev := line :: st.filteredRev,
                     originalSegments := st.originalSegments + 1 }
    | none =>
      { st with filteredRev := line :: st.filteredRev,
                originalSegments := st.originalSegments + 1 }
  else if strStartsWith trimmedLine "#" = false ∧ trimmedLine ≠ "" then
    if isAdUrl regexTest trimmedLine adConfig then
      let stPopped :=
        match st.filteredRev with
        | prev :: restRev =>
          if strStartsWith (strTrim prev) "#EXTINF:" then
            { st with filteredRev := restRev, originalSegments := st.originalSegments - 1 }
          else st
        | [] => st
      { stPopped with removedSegments := stPopped.removedSegments + 1 }
    else { st with filteredRev := line :: st.filteredRev }
  else { st with filteredRev := line :: st.filteredRev }

/-- The full line pass of `filterAdsFromM3U8` over a list of lines. -/
def m3u8Fold (regexTest : String → String → Bool) (source : Option String)
    (adConfig : AdFilterConfig) (lines : List String) : M3U8State :=
  lines.foldl (m3u8Step regexTest source adConfig) ⟨[], 0, 0, false⟩

/-- The lines retained by the rewrite, in output order (their join is the
rewritten content). -/
def m3u8FilteredLines (regexTest : String → String → Bool) (m3u8Content : String)
    (source : Option String) (adConfig : AdFilterConfig) : List String :=
  (m3u8Fold regexTest source adConfig (strSplitLines m3u8Content)).filteredRev.reverse

/-- `filterAdsFromM3U8`: disabled-or-empty short circuit, else split on
newlines, run the line pass and join the kept lines. -/
def filterAdsFromM3U8 (regexTest : String → String → Bool) (m3u8Content : String)
    (source : Option String) (adConfig : AdFilterConfig) : M3U8FilterResult :=
  if adConfig.enabled = false ∨ m3u8Content = "" then
    { content := m3u8Content, removedSegments := 0, originalSegments := 0 }
  else
    let st := m3u8Fold regexTest source adConfig (strSplitLines m3u8Content)
    { content := strJoinLines st.filteredRev.reverse,
      removedSegments := st.removedSegments,
      originalSegments := st.originalSegments }

/-- Number of duration-declaration lines in a list of lines. -/
def countExtinf (l : List String) : ℕ :=
  (l.filter (fun s => strStartsWith (strTrim s) "#EXTINF:")).length

/-! ## Shared concrete instances and helper lemmas -/

/-- A concrete configuration with filtering enabled and no custom patterns,
parametrised by the strict-mode flag. -/
def cfgNoPatterns (strict : Bool) : AdFilterConfig :=
  { enabled := true, strictMode := strict, customPatterns := [],
    skipPreRoll := true, skipMidRoll := true, skipPostRoll := true,
    maxAdDuration := dec 300 0, minContentDuration := dec 60 0 }

/-- The same configuration with filtering disabled. -/
def cfgDisabled : AdFilterConfig :=
  { cfgNoPatterns false with enabled := false }

/-- A concrete regex test standing for a configuration whose custom patterns
contain no regex entries (it is never consulted in the instances below). -/
def regexFalse : String → String → Bool := fun _ _ => false

theorem cacheLookup_cacheInsert (c : AdHistory) (k : String × Option Dec) (b : Bool) :
    cacheLookup (cacheInsert c k b) k = some b := by
  simp [cacheLookup, cacheInsert, List.find?]

theorem durationNear_iff (d t : Dec) :
    durationNear d t = true ↔ |d.toQ - t.toQ| < 1 / 100 := by
  rw [durationNear, Dec.blt_iff, Dec.toQ_abs, Dec.toQ_sub]
  have h : (dec 1 2).toQ = 1 / 100 := by norm_num [Dec.toQ, dec]
  rw [h]

theorem countExtinf_cons (s : String) (l : List String) :
    countExtinf (s :: l) =
      if strStartsWith (strTrim s) "#EXTINF:" = true then countExtinf l + 1 else countExtinf l := by
  simp only [countExtinf, List.filter_cons]
  split <;> simp

theorem countExtinf_reverse (l : List String) :
    countExtinf l.reverse = countExtinf l := by
  simp only [countExtinf, List.filter_reverse, List.length_reverse]

/-- Every branch of the loop body keeps `originalSegments` equal to the number
of duration-declaration lines currently retained. -/
theorem m3u8Step_original (rt : String → String → Bool) (src : Option String)
    (cfg : AdFilterConfig) (st : M3U8State) (line : String)
    (h : st.originalSegments = (countExtinf st.filteredRev : ℤ)) :
    (m3u8Step rt src cfg st line).originalSegments =
      (countExtinf (m3u8Step rt src cfg st line).filteredRev : ℤ) := by
  unfold m3u8Step
  by_cases h1 : st.skipNext = true
  · simp only [if_pos h1]; exact h
  rw [if_neg h1]
  by_cases h2 : strTrim line = "#EXT-X-DISCONTINUITY"
  · rw [if_pos h2]; exact h
  rw [if_neg h2]
  by_cases h3 : strStartsWith (strTrim line) "#EXTINF:" = true
  · rw [if_pos h3]
    cases hp : parseExtinfDuration (strTrim line) with
    | some d =>
      by_cases h4 : isAdDuration d src cfg = true
      · simp only [if_pos h4]; exact h
      · simp only [if_neg h4, countExtinf_cons, if_pos h3]
        push_cast
        omega
    | none =>
      simp only [countExtinf_cons, if_pos h3]
      push_cast
      omega
  rw [if_neg h3]
  by_cases h5 : strStartsWith (strTrim line) "#" = false ∧ strTrim line ≠ ""
  · rw [if_pos h5]
    by_cases h6 : isAdUrl rt (strTrim line) cfg = true
    · rw [if_pos h6]
      cases hr : st.filteredRev with
      | nil => simp only [hr] at h ⊢; exact h
      | cons prev rest =>
        simp only [hr] at h ⊢
        by_cases h7 : strStartsWith (strTrim prev) "#EXTINF:" = true
        · rw [if_pos h7]
          rw [countExtinf_cons, if_pos h7] at h
          push_cast at h ⊢
          omega
        · rw [if_neg h7]
          rw [hr]
          exact h
    · rw [if_neg h6]
      simp only [countExtinf_cons, if_neg h3]
      exact h
  · rw [if_neg h5]
    simp only [countExtinf_cons, if_neg h3]
    exact h

theorem m3u8Fold_original (rt : String → String → Bool) (src : Option String)
    (cfg : AdFilterConfig) :
    ∀ (lines : List String) (st : M3U8State),
      st.originalSegments = (countExtinf st.filteredRev : ℤ) →
      (List.foldl (m3u8Step rt src cfg) st lines).originalSegments =
        (countExtinf (List.foldl (m3u8Step rt src cfg) st lines).filteredRev : ℤ)
  | [], _, h => h
  | l :: ls, st, h =>
    m3u8Fold_original rt src cfg ls (m3u8Step rt src cfg st l) (m3u8Step_original rt src cfg st l h)

/-- The line pass applied to the single empty line produced by splitting the
empty manifest. -/
theorem m3u8Fold_empty (rt : String → String → Bool) (src : Option String)
    (cfg : AdFilterConfig) :
    m3u8Fold rt src cfg (strSplitLines "") = ⟨[""], 0, 0, false⟩ := rfl

theorem marker_not_extinf :
    strStartsWith "#EXT-X-DISCONTINUITY" "#EXTINF:" = false := by decide

/-- No branch of the loop body ever pushes a line trimming to the discontinuity
marker: marker lines are consumed by the dedicated branch (or by the one-line
lookahead), and the duration-declaration branch only pushes `#EXTINF:` lines. -/
theorem m3u8Step_no_marker (rt : String → String → Bool) (src : Option String)
    (cfg : AdFilterConfig) (st : M3U8State) (line : String)
    (h : ∀ l ∈ st.filteredRev, strTrim l ≠ "#EXT-X-DISCONTINUITY") :
    ∀ l ∈ (m3u8Step rt src cfg st line).filteredRev,
      strTrim l ≠ "#EXT-X-DISCONTINUITY" := by
  have hpush : strTrim line ≠ "#EXT-X-DISCONTINUITY" →
      ∀ l ∈ line :: st.filteredRev, strTrim l ≠ "#EXT-X-DISCONTINUITY" := by
    intro hl l hm
    rcases List.mem_cons.mp hm with rfl | hm'
    · exact hl
    · exact h l hm'
  unfold m3u8Step
  by_cases h1 : st.skipNext = true
  · simp only [if_pos h1]; exact h
  rw [if_neg h1]
  by_cases h2 : strTrim line = "#EXT-X-DISCONTINUITY"
  · rw [if_pos h2]; exact h
  rw [if_neg h2]
  by_cases h3 : strStartsWith (strTrim line) "#EXTINF:" = true
  · rw [if_pos h3]
    cases hp : parseExtinfDuration (strTrim line) with
    | some d =>
      by_cases h4 : isAdDuration d src cfg = true
      · simp only [if_pos h4]; exact h
      · simp only [if_neg h4]; exact hpush h2
    | none => exact hpush h2
  rw [if_neg h3]
  by_cases h5 : strStartsWith (strTrim line) "#" = false ∧ strTrim line ≠ ""
  · rw [if_pos h5]
    by_cases h6 : isAdUrl rt (strTrim line) cfg = true
    · rw [if_pos h6]
      cases hr : st.filteredRev with
      | nil => simp only [hr] at h ⊢; exact h
      | cons prev rest =>
        simp only [hr] at h ⊢
        by_cases h7 : strStartsWith (strTrim prev) "#EXTINF:" = true
        · rw [if_pos h7]
          intro l hm
          exact h l (List.mem_cons_of_mem prev hm)
        · rw [if_neg h7]
          rw [hr]
          exact h
    · rw [if_neg h6]; exact hpush h2
  · rw [if_neg h5]; exact hpush h2

theorem m3u8Fold_no_marker (rt : String → String → Bool) (src : Option String)
    (cfg : AdFilterConfig) :
    ∀ (lines : List String) (st : M3U8State),
      (∀ l ∈ st.filteredRev, strTrim l ≠ "#EXT-X-DISCONTINUITY") →
      ∀ l ∈ (List.foldl (m3u8Step rt src cfg) st lines).filteredRev,
        strTrim l ≠ "#EXT-X-DISCONTINUITY"
  | [], _, h => h
  | l :: ls, st, h =>
    m3u8Fold_no_marker rt src cfg ls (m3u8Step rt src cfg st l)
      (m3u8Step_no_marker rt src cfg st l h)

/-- A pass of `filterAdSegments` returns a sublist of its input (it only ever
drops elements, preserving order). -/
theorem filterAdSegments_sublist (segments : List Segment) :
    ∀ (cache : AdHistory) (config : AdFilterConfig),
      List.Sublist (filterAdSegments cache segments config).1 segments := by
  induction segments with
  | nil =>
    intro cache config
    simp [filterAdSegments]
  | cons s t ih =>
    intro cache config
    simp only [filterAdSegments]
    split
    · exact List.Sublist.cons s (ih _ _)
    · exact List.Sublist.cons₂ s (ih _ _)

/-! ## Claims -/

/-- C1: the claim states that for a fragment with a (truthy) duration and no
prior cache entry, `detectAd` returns the OR of the four sub-analyses' `isAd`
flags.  The code instead performs `result = { ...subAnalysis, ...result }`, in
which the fields of the old `result` win, so the URL, title and sequence
analyses can never change the verdict: on the fragment below the cache is
empty, the duration is present, the URL analysis flags an ad (keyword
`adserver`, confidence 0.9) so the OR of the four flags is true, yet `detectAd`
returns the duration analysis's `isAd = false`. -/
theorem c1_detectAd_not_or_of_subresults :
    (detectAd [] { url := "https://x.com/adserver/seg1.ts", duration := some (dec 100 0),
                   title := some "hello", index := some 5 }).1.isAd = false ∧
    cacheLookup [] ("https://x.com/adserver/seg1.ts", some (dec 100 0)) = none ∧
    (analyzeByDuration (dec 100 0)).isAd = false ∧
    (analyzeByUrl "https://x.com/adserver/seg1.ts").isAd = true ∧
    (analyzeByTitle "hello").isAd = false ∧
    (analyzeBySequence 5 (dec 100 0)).isAd = false := by
  decide

/-- C2 (amended): a second pass of `filterAdSegments` over the first pass's
output, with the same configuration and the cache state left by the first pass,
returns a sublist of the first pass's output — it preserves order and never
adds fragments, but it is not the identity in general (see the
counterexample). -/
theorem c2_second_pass_sublist (cache : AdHistory) (segments : List Segment)
    (config : AdFilterConfig) :
    List.Sublist
      (filterAdSegments (filterAdSegments cache segments config).2
        (filterAdSegments cache segments config).1 config).1
      (filterAdSegments cache segments config).1 :=
  filterAdSegments_sublist _ _ _

/-- C2 counterexample: with an enabled, non-strict, pattern-free configuration
and an empty initial cache, the single segment `u.ts` of duration `4.5` is kept
by the first pass (the classifier reports ad at confidence only 0.4, and no
pattern or heuristic matches), but the first pass caches the classifier's ad
verdict; on the second pass the cache hit returns that verdict at confidence
0.9, which clears the high-confidence threshold, and the segment is removed —
so `filterAdSegments` is not idempotent. -/
theorem c2_counterexample :
    (filterAdSegments
        (filterAdSegments [] [{ url := "u.ts", duration := some (dec 45 1) }] (cfgNoPatterns false)).2
        (filterAdSegments [] [{ url := "u.ts", duration := some (dec 45 1) }] (cfgNoPatterns false)).1
        (cfgNoPatterns false)).1 ≠
      (filterAdSegments [] [{ url := "u.ts", duration := some (dec 45 1) }] (cfgNoPatterns false)).1 := by
  decide

/-- C3 (amended): when filtering is enabled, `strictMode` is false, the
classifier's confidence is below 0.7, no enabled custom pattern matches, and
neither the inline heuristics nor a built-in generic `AD_PATTERNS` rule
matches, `isAdSegment` returns false: in non-strict mode the generic-fallback
step returns its match result directly, so the medium-confidence classifier
fallback (step 5) is unreachable; it is reachable only in strict mode. -/
theorem c3_nonstrict_step5_unreachable (cache : AdHistory) (url : String)
    (duration : Option Dec) (title : Option String) (index : Option ℕ)
    (cfg : AdFilterConfig) (hen : cfg.enabled = true) (hs : cfg.strictMode = false)
    (hconf : ((detectAd cache
        { url := url, duration := duration, title := title, index := index }).1.confidence).toQ
      < 7 / 10)
    (hcust : cfg.customPatterns.any (fun p => customPatternMatches p url duration title) = false)
    (hinl : inlineHeuristicOpt url duration = false)
    (hfall : AD_PATTERNS.any (fun p => adSegmentPatternMatches p url duration title) = false) :
    (isAdSegment cache url duration title cfg index).1 = false := by
  have h7 : Dec.ble (dec 7 1)
      ((detectAd cache { url := url, duration := duration, title := title, index := index }).1.confidence)
      = false := by
    rw [Bool.eq_false_iff]
    intro hb
    rw [Dec.ble_iff] at hb
    have h710 : (dec 7 1).toQ = 7 / 10 := by norm_num [Dec.toQ, dec]
    rw [h710] at hb
    exact absurd hconf (not_lt.mpr hb)
  simp [isAdSegment, hen, hs, hcust, hinl, hfall, h7]

/-- C3 witness: the amended theorem applied to the fragment `u.ts` of duration
`4.5` (classifier: ad at confidence 0.4) under the enabled, non-strict,
pattern-free configuration. -/
theorem c3_witness :
    ((detectAd []
        { url := "u.ts", duration := some (dec 45 1), title := none, index := none }).1.confidence).toQ
      < 7 / 10 ∧
    (isAdSegment [] "u.ts" (some (dec 45 1)) none (cfgNoPatterns false) none).1 = false := by
  have hc : (detectAd []
      { url := "u.ts", duration := some (dec 45 1), title := none, index := none }).1.confidence
      = dec 4 1 := by decide
  refine ⟨?_, ?_⟩
  · rw [hc]; norm_num [Dec.toQ, dec]
  · exact c3_nonstrict_step5_unreachable [] "u.ts" (some (dec 45 1)) none none
      (cfgNoPatterns false) rfl rfl (by rw [hc]; norm_num [Dec.toQ, dec])
      (by decide) (by decide) (by decide)

/-- C3 counterexample: the claim as stated fails on the same fragment: all of
its hypotheses hold (confidence 0.4 < 0.7, classifier verdict is ad, no custom
pattern, no inline heuristic, no generic rule), its conclusion demands
`isAdSegment = true` because `0.4 ≥ 0.4` and the verdict is ad, but the code
returns false. -/
theorem c3_counterexample :
    (detectAd []
        { url := "u.ts", duration := some (dec 45 1), title := none, index := none }).1
      = { isAd := true, confidence := dec 4 1, reason := "短片段 (45e-1s)",
          adType := some AdType.short } ∧
    ((dec 4 1).toQ < 7 / 10 ∧ 4 / 10 ≤ (dec 4 1).toQ) ∧
    (cfgNoPatterns false).customPatterns.any
        (fun p => customPatternMatches p "u.ts" (some (dec 45 1)) none) = false ∧
    inlineHeuristicOpt "u.ts" (some (dec 45 1)) = false ∧
    AD_PATTERNS.any (fun p => adSegmentPatternMatches p "u.ts" (some (dec 45 1)) none) = false ∧
    (isAdSegment [] "u.ts" (some (dec 45 1)) none (cfgNoPatterns false) none).1 = false := by
  refine ⟨by decide, ⟨?_, ?_⟩, by decide, by decide, by decide, by decide⟩
  · norm_num [Dec.toQ, dec]
  · norm_num [Dec.toQ, dec]

/-- C4 (amended): for a fragment whose duration is present *and nonzero* (a
zero duration is falsy in JS and short-circuits before the cache write, see the
counterexample): (1) if the cache holds an entry for `(url, duration)`,
`detectAd` returns exactly the cached `isAd` with the fixed record of
confidence 0.9 — independent of the title and index, i.e. without re-running
the URL/title/sequence analyses — and leaves the cache unchanged; (2) if there
is no entry, the call inserts the computed `isAd` under `(url, duration)`;
(3) the constant `dec 9 1` denotes the rational 9/10. -/
theorem c4_cache_hit_and_insert (cache : AdHistory) (fragment : FragmentInfo) (d : Dec)
    (hd : fragment.duration = some d) (hdz : d.isZero = false) :
    (∀ b : Bool, cacheLookup cache (fragment.url, fragment.duration) = some b →
      detectAd cache fragment =
        ({ isAd := b, confidence := dec 9 1, reason := "缓存命中",
           adType := some AdType.unknown }, cache)) ∧
    (cacheLookup cache (fragment.url, fragment.duration) = none →
      cacheLookup (detectAd cache fragment).2 (fragment.url, fragment.duration) =
        some (detectAd cache fragment).1.isAd) ∧
    (dec 9 1).toQ = 9 / 10 := by
  refine ⟨?_, ?_, by norm_num [Dec.toQ, dec]⟩
  · intro b hb
    simp only [detectAd, hb]
  · intro hnone
    rw [hd] at hnone
    simp only [detectAd, hd, hnone, truthyDur, hdz]
    simp only [Bool.false_eq_true, if_false]
    exact cacheLookup_cacheInsert cache (fragment.url, some d) _

/-- C4 witness: the amended theorem applied to the fragment `u` of duration 5
against the empty cache: the first classification inserts its verdict under
`("u", some 5)`. -/
theorem c4_witness :
    (dec 5 0).isZero = false ∧
    cacheLookup
        (detectAd [] { url := "u", duration := some (dec 5 0) }).2
        ("u", some (dec 5 0)) =
      some (detectAd [] { url := "u", duration := some (dec 5 0) }).1.isAd :=
  ⟨by decide,
   (c4_cache_hit_and_insert [] { url := "u", duration := some (dec 5 0) } (dec 5 0)
      rfl (by decide)).2.1 rfl⟩

/-- C4 counterexample: the claim as stated fails for a *zero* duration, which
is present but falsy in JS: the first call on `("u", duration 0)` performs a
classification (the duration is present) yet inserts nothing into the cache,
and the identical later call is not a cache hit — it returns the fixed
missing-duration result with confidence 0.1, not the cached-verdict record
with confidence 0.9. -/
theorem c4_counterexample :
    (detectAd [] { url := "u", duration := some (dec 0 0) }).2 = ([] : AdHistory) ∧
    (detectAd ((detectAd [] { url := "u", duration := some (dec 0 0) }).2)
        { url := "u", duration := some (dec 0 0) }).1.confidence = dec 1 1 ∧
    (dec 1 1).toQ ≠ 9 / 10 := by
  refine ⟨by decide, by decide, ?_⟩
  norm_num [Dec.toQ, dec]

/-- C5 (amended): for every regex semantics, manifest, source and *enabled*
configuration, the `originalSegments` counter of the rewrite — not
`originalSegments - removedSegments` as the claim states — equals the number of
duration-declaration (`#EXTINF`) lines retained in the rewritten output
(`m3u8FilteredLines` is the list of kept lines whose join is the returned
content). -/
theorem c5_original_eq_retained (rt : String → String → Bool) (content : String)
    (src : Option String) (cfg : AdFilterConfig) (hen : cfg.enabled = true) :
    (filterAdsFromM3U8 rt content src cfg).originalSegments =
      (countExtinf (m3u8FilteredLines rt content src cfg) : ℤ) := by
  by_cases hc : content = ""
  · subst hc
    rw [filterAdsFromM3U8, if_pos (Or.inr rfl)]
    rw [m3u8FilteredLines, m3u8Fold_empty]
    decide
  · rw [filterAdsFromM3U8, if_neg (by simp [hen, hc])]
    rw [m3u8FilteredLines, countExtinf_reverse]
    exact m3u8Fold_original rt src cfg (strSplitLines content) ⟨[], 0, 0, false⟩ (by decide)

/-- C5 witness: the amended theorem applied to a two-line manifest whose
segment is kept (duration 6 matches no ad-duration table). -/
theorem c5_witness :
    (cfgNoPatterns false).enabled = true ∧
    (filterAdsFromM3U8 regexFalse "#EXTINF:6.000000,\ncontent01.ts" none
        (cfgNoPatterns false)).originalSegments =
      (countExtinf (m3u8FilteredLines regexFalse "#EXTINF:6.000000,\ncontent01.ts" none
        (cfgNoPatterns false)) : ℤ) :=
  ⟨rfl, c5_original_eq_retained regexFalse "#EXTINF:6.000000,\ncontent01.ts" none
    (cfgNoPatterns false) rfl⟩

/-- C5 counterexample: on the `ruyi` two-line manifest the rewrite removes the
`#EXTINF:5.640000,` line and its URL, reporting `originalSegments = 0` and
`removedSegments = 1`, while the rewritten output retains 0 duration lines: the
claimed identity `originalSegments - removedSegments = retained` reads
`0 - 1 = 0` and is false. -/
theorem c5_counterexample :
    (filterAdsFromM3U8 regexFalse "#EXTINF:5.640000,\nsegment01.ts" (some "ruyi")
          (cfgNoPatterns false)).originalSegments -
        (filterAdsFromM3U8 regexFalse "#EXTINF:5.640000,\nsegment01.ts" (some "ruyi")
          (cfgNoPatterns false)).removedSegments ≠
      (countExtinf (strSplitLines
        (filterAdsFromM3U8 regexFalse "#EXTINF:5.640000,\nsegment01.ts" (some "ruyi")
          (cfgNoPatterns false)).content) : ℤ) := by
  decide

/-- C6: (1) for every duration, source and configuration, `isAdDuration` is the
per-source table match OR-ed with the fallback-table match gated on
`strictMode == false` — so source-specific durations always apply and the
global fallback is consulted exactly when strict mode is off; (2) in
particular, the manifest `#EXTINF:5.640000,` / `segment01.ts` rewritten with
source `ruyi` under the enabled pattern-free configuration (either strict-mode
value) loses both lines and reports `removedSegments = 1`. -/
theorem c6_duration_rules :
    (∀ (d : Dec) (src : Option String) (cfg : AdFilterConfig),
        isAdDuration d src cfg =
          (sourceDurationMatch d src || (!cfg.strictMode && commonDurationMatch d))) ∧
    (∀ strict : Bool,
        filterAdsFromM3U8 regexFalse "#EXTINF:5.640000,\nsegment01.ts" (some "ruyi")
            (cfgNoPatterns strict) =
          { content := "", removedSegments := 1, originalSegments := 0 }) := by
  constructor
  · intro d src cfg
    unfold isAdDuration
    cases h1 : sourceDurationMatch d src <;> cases h2 : cfg.strictMode <;> simp [h1, h2]
  · intro strict
    cases strict <;> decide

/-- C7 (amended): when filtering is enabled, the rewritten content is the join
of the retained lines and no retained line trims to `#EXT-X-DISCONTINUITY` —
every discontinuity marker line is absent from the output.  (The second half of
the claim — that a marker's presence never changes `removedSegments` — is
false: see the counterexample, where a marker directly after an ad-duration
`#EXTINF` line is consumed and counted by the one-line lookahead.) -/
theorem c7_marker_lines_dropped (rt : String → String → Bool) (content : String)
    (src : Option String) (cfg : AdFilterConfig) (hen : cfg.enabled = true) :
    (filterAdsFromM3U8 rt content src cfg).content =
        strJoinLines (m3u8FilteredLines rt content src cfg) ∧
    ∀ l ∈ m3u8FilteredLines rt content src cfg, strTrim l ≠ "#EXT-X-DISCONTINUITY" := by
  constructor
  · by_cases hc : content = ""
    · subst hc
      rw [filterAdsFromM3U8, if_pos (Or.inr rfl)]
      rw [m3u8FilteredLines, m3u8Fold_empty]
      decide
    · rw [filterAdsFromM3U8, if_neg (by simp [hen, hc])]
      rfl
  · intro l hl
    rw [m3u8FilteredLines, List.mem_reverse] at hl
    exact m3u8Fold_no_marker rt src cfg (strSplitLines content) ⟨[], 0, 0, false⟩
      (by intro x hx; cases hx) l hl

/-- C7 witness: the theorem applied to a manifest holding one marker line,
under the enabled pattern-free configuration. -/
theorem c7_witness :
    (cfgNoPatterns false).enabled = true ∧
    ((filterAdsFromM3U8 regexFalse "#EXT-X-DISCONTINUITY\nseg01.ts" none
          (cfgNoPatterns false)).content =
        strJoinLines (m3u8FilteredLines regexFalse "#EXT-X-DISCONTINUITY\nseg01.ts" none
          (cfgNoPatterns false)) ∧
      ∀ l ∈ m3u8FilteredLines regexFalse "#EXT-X-DISCONTINUITY\nseg01.ts" none
          (cfgNoPatterns false), strTrim l ≠ "#EXT-X-DISCONTINUITY") :=
  ⟨rfl, c7_marker_lines_dropped regexFalse "#EXT-X-DISCONTINUITY\nseg01.ts" none
    (cfgNoPatterns false) rfl⟩

/-- C7 counterexample: inserting a `#EXT-X-DISCONTINUITY` line between an
ad-duration `#EXTINF` line and an ad URL changes `removedSegments` from 1 to 2:
the lookahead consumes (and counts) the marker instead of the URL, and the URL
is then removed separately by the URL check — so the marker's presence does
change the returned `removedSegments` count. -/
theorem c7_counterexample :
    (filterAdsFromM3U8 regexFalse "#EXTINF:5.640000,\n#EXT-X-DISCONTINUITY\nadserver.ts" none
        (cfgNoPatterns false)).removedSegments ≠
      (filterAdsFromM3U8 regexFalse "#EXTINF:5.640000,\nadserver.ts" none
        (cfgNoPatterns false)).removedSegments := by
  decide

/-- C8: ad-duration table matching uses an exact match within tolerance 0.01:
(1) the comparison `durationNear` holds exactly when `|d - t| < 1/100` over the
rational values; (2) `isAdDuration` holds exactly when some entry of the
per-source table, or — in non-strict mode — of the global table, is within that
tolerance; (3) in particular a declared duration of 5.001 against the `ffzy`
table entry 5.0 matches under every configuration, and 5.02 matches under
none. -/
theorem c8_tolerance :
    (∀ d t : Dec, durationNear d t = true ↔ |d.toQ - t.toQ| < 1 / 100) ∧
    (∀ (d : Dec) (src : Option String) (cfg : AdFilterConfig),
        isAdDuration d src cfg = true ↔
          ((∃ t ∈ sourceListOf src, |d.toQ - t.toQ| < 1 / 100) ∨
           (cfg.strictMode = false ∧ ∃ t ∈ commonAdDurations, |d.toQ - t.toQ| < 1 / 100))) ∧
    (∀ cfg : AdFilterConfig, isAdDuration (dec 5001 3) (some "ffzy") cfg = true) ∧
    (∀ cfg : AdFilterConfig, isAdDuration (dec 502 2) (some "ffzy") cfg = false) := by
  refine ⟨durationNear_iff, ?_, ?_, ?_⟩
  · intro d src cfg
    unfold isAdDuration sourceDurationMatch commonDurationMatch
    cases h1 : (sourceListOf src).any (fun t => durationNear d t) <;>
      cases h2 : cfg.strictMode <;>
        simp_all [List.any_eq_true, durationNear_iff]
  · intro cfg
    unfold isAdDuration
    rw [if_pos (by decide : sourceDurationMatch (dec 5001 3) (some "ffzy") = true)]
  · intro cfg
    unfold isAdDuration
    rw [if_neg (by decide : ¬ sourceDurationMatch (dec 502 2) (some "ffzy") = true)]
    cases h : cfg.strictMode <;> simp [h] <;> decide

/-- C9: whenever the configuration has `enabled = false`, `isAdSegment` returns
false (and leaves the classifier cache untouched — the classifier is not even
consulted). -/
theorem c9_disabled_never_ad (cache : AdHistory) (url : String) (duration : Option Dec)
    (title : Option String) (cfg : AdFilterConfig) (index : Option ℕ)
    (h : cfg.enabled = false) :
    isAdSegment cache url duration title cfg index = (false, cache) := by
  simp [isAdSegment, h]

/-- C9 witness: the theorem applied to the short ad-looking fragment of the
spec's scenario under the disabled configuration. -/
theorem c9_witness :
    cfgDisabled.enabled = false ∧
    isAdSegment [] "https://x/video/ad_segment_001.ts" (some (dec 8 0)) none
        cfgDisabled none = (false, []) :=
  ⟨rfl, c9_disabled_never_ad [] "https://x/video/ad_segment_001.ts" (some (dec 8 0)) none
    cfgDisabled none rfl⟩

/-- C10: for every index and duration, the sequence analysis reports
`isAd = false` with confidence at most 0.2; since `detectAd` ORs no verdicts
and only merges a sub-analysis when its `isAd` is true, the sequence signal
alone can never flag a fragment as an ad. -/
theorem c10_sequence_never_flags (index : ℕ) (duration : Dec) :
    (analyzeBySequence index duration).isAd = false ∧
    (analyzeBySequence index duration).confidence.toQ ≤ 1 / 5 := by
  unfold analyzeBySequence
  split
  · exact ⟨rfl, by norm_num [Dec.toQ, dec]⟩
  · split
    · exact ⟨rfl, by norm_num [Dec.toQ, dec]⟩
    · exact ⟨rfl, by norm_num [Dec.toQ, dec]⟩
